import Mathlib

set_option maxRecDepth 16384

/-!
Verification of the logging subsystem driven by
`src/rust/pact_ffi/examples/logging/src/main.c`.

The example file is glue over the pact_ffi logging interface; the logger
implementation itself is not part of the provided sources, so the logger
operations are modelled from the specification (each such definition is
marked `Modelled from the spec:`).  The control flow of `main` itself is
embedded directly from the C source.
-/

/-- Modelled from the spec: the totally ordered enumeration of severity
thresholds, `Off < Error < Warn < Info < Debug < Trace < All`
(the actual enum lives in the pact_ffi crate, not in the sources). -/
inductive LevelFilter where
  | Off
  | Error
  | Warn
  | Info
  | Debug
  | Trace
  | All
deriving DecidableEq, Repr, Fintype

/-- Modelled from the spec: numeric rank of a level in the total order
`Off < Error < Warn < Info < Debug < Trace < All`. -/
def LevelFilter.toNat : LevelFilter → Nat
  | .Off => 0
  | .Error => 1
  | .Warn => 2
  | .Info => 3
  | .Debug => 4
  | .Trace => 5
  | .All => 6

/-- Modelled from the spec: a sink with filter `F` admits a record at
level `L` iff `L ≤ F` (Trace is most verbose). -/
def admits (F L : LevelFilter) : Bool :=
  L.toNat ≤ F.toNat

/-- The chain `Off < Error < Warn < Info < Debug < Trace < All` exactly as
the spec lists it; used to state the admission claim independently of
`LevelFilter.toNat`. -/
def levelChain : List LevelFilter :=
  [.Off, .Error, .Warn, .Info, .Debug, .Trace, .All]

/-- Position of a level in the spec's chain. -/
def chainIdx (l : LevelFilter) : Nat :=
  levelChain.indexOf l

/-- Modelled from the spec: parse the level strings accepted by
`pactffi_log_message`; unknown level strings are rejected silently
(the record is dropped, no failure is surfaced). -/
def parseLevel (s : String) : Option LevelFilter :=
  if s = "error" then some .Error
  else if s = "warn" then some .Warn
  else if s = "info" then some .Info
  else if s = "debug" then some .Debug
  else if s = "trace" then some .Trace
  else none

/-- Modelled from the spec: sink kinds parsed from the configuration
string (`"stdout"`, `"stderr"`, `"file <path>"`, `"buffer"`,
`"buffer <id>"`). -/
inductive SinkKind where
  | stdout
  | stderr
  | file (path : String)
  | buffer (id : String)
deriving DecidableEq, Repr

/-- Does the first character list start with the second?  (Structural
replacement for the run-time prefix test, so that the kernel can
evaluate it.) -/
def listStarts : List Char → List Char → Bool
  | [], _ => true
  | _ :: _, [] => false
  | a :: as, b :: bs => a == b && listStarts as bs

/-- Does string `s` start with `pre`? -/
def strStarts (pre s : String) : Bool :=
  listStarts pre.data s.data

/-- Drop the first `n` characters of a string. -/
def strDrop (s : String) (n : Nat) : String :=
  ⟨s.data.drop n⟩

/-- Modelled from the spec: parse a sink specification string into a sink
kind; an unrecognised string is an `InvalidSinkSpec` error (`none`). -/
def parseSinkSpec (spec : String) : Option SinkKind :=
  if spec = "stdout" then some .stdout
  else if spec = "stderr" then some .stderr
  else if strStarts "file " spec then some (.file (strDrop spec 5))
  else if spec = "buffer" then some (.buffer "")
  else if strStarts "buffer " spec then some (.buffer (strDrop spec 7))
  else none

/-- Modelled from the spec: a sink is identified by its configuration
string, carries a kind and a level filter, and is an append-only write
target whose written records we keep as a list of formatted lines. -/
structure Sink where
  spec : String
  kind : SinkKind
  filter : LevelFilter
  contents : List String
deriving DecidableEq, Repr

/-- Modelled from the spec: the logger lifecycle phases; `Building` is the
pre-apply state, `Applied` the frozen dispatch-ready state, and the
`Building → Applied` transition is one-way. -/
inductive Phase where
  | Building
  | Applied
deriving DecidableEq, Repr

/-- Modelled from the spec: the process-wide logger state: lifecycle
phase, the ordered sink set, the single-slot last-error channel, and the
registry of snapshot strings handed to the caller (handle, contents)
together with the next fresh handle. -/
structure LoggerState where
  phase : Phase
  sinks : List Sink
  lastError : Option String
  allocated : List (Nat × String)
  nextHandle : Nat
deriving DecidableEq, Repr

/-- Overwrite the single-slot last-error channel. -/
def setErr (s : LoggerState) (e : String) : LoggerState :=
  { s with lastError := some e }

/-- Status code for success (`0 = ok`). -/
def statusOk : Int := 0

/-- Nonzero status for an unparseable sink specification. -/
def errInvalidSinkSpec : Int := 1

/-- Nonzero status for re-registering an existing sink identity. -/
def errDuplicateSink : Int := 3

/-- Nonzero status for configuration calls after the apply gate. -/
def errAlreadyApplied : Int := 4

/-- Nonzero status for applying an empty sink set. -/
def errNoSinksConfigured : Int := 5

/-- Modelled from the spec: `pactffi_logger_init` resets the process-wide
state to Building, discarding prior unapplied sinks. -/
def pactffi_logger_init : LoggerState :=
  ⟨.Building, [], none, [], 0⟩

/-- Modelled from the spec: `pactffi_logger_attach_sink` parses the sink
specification and appends one sink to the builder; it fails with
`AlreadyApplied` after the apply gate, `InvalidSinkSpec` on an unknown
scheme and `DuplicateSink` when the identical identity already exists. -/
def pactffi_logger_attach_sink (spec : String) (filter : LevelFilter)
    (s : LoggerState) : Int × LoggerState :=
  match s.phase with
  | .Applied => (errAlreadyApplied, setErr s "AlreadyApplied")
  | .Building =>
    match parseSinkSpec spec with
    | none => (errInvalidSinkSpec, setErr s "InvalidSinkSpec")
    | some k =>
      if s.sinks.any (fun sk => sk.spec = spec) then
        (errDuplicateSink, setErr s "DuplicateSink")
      else
        (statusOk, { s with sinks := s.sinks ++ [⟨spec, k, filter, []⟩] })

/-- Modelled from the spec: `pactffi_logger_apply` freezes the sink set,
transitioning `Building → Applied`; it fails with `NoSinksConfigured` on
an empty sink set and with `AlreadyApplied` when called a second time. -/
def pactffi_logger_apply (s : LoggerState) : Int × LoggerState :=
  match s.phase with
  | .Applied => (errAlreadyApplied, setErr s "AlreadyApplied")
  | .Building =>
    if s.sinks.isEmpty then
      (errNoSinksConfigured, setErr s "NoSinksConfigured")
    else
      (statusOk, { s with phase := .Applied })

/-- Spelled-out level name used in a formatted record line. -/
def levelName : LevelFilter → String
  | .Off => "OFF"
  | .Error => "ERROR"
  | .Warn => "WARN"
  | .Info => "INFO"
  | .Debug => "DEBUG"
  | .Trace => "TRACE"
  | .All => "ALL"

/-- Modelled from the spec: the formatted record line holds the target,
the level and the message and ends the line; the timestamp required by
the spec is non-deterministic and therefore omitted from the model. -/
def formatRecord (target : String) (level : LevelFilter) (message : String) :
    String :=
  target ++ " " ++ levelName level ++ " " ++ message ++ "\n"

/-- Modelled from the spec: `pactffi_log_message` returns void; it parses
the level (unknown levels are dropped silently), and for each sink in the
frozen set whose filter admits the level appends one formatted record
line; calls before apply are silently dropped; no failure is ever
surfaced (the last-error slot is untouched). -/
def pactffi_log_message (target level message : String)
    (s : LoggerState) : LoggerState :=
  match s.phase with
  | .Building => s
  | .Applied =>
    match parseLevel level with
    | none => s
    | some l =>
      { s with sinks := s.sinks.map (fun sk =>
          if admits sk.filter l then
            { sk with contents := sk.contents ++ [formatRecord target l message] }
          else sk) }

/-- A sequence of `pactffi_log_message` calls (target, level, message). -/
def runLogs (msgs : List (String × String × String)) (s : LoggerState) :
    LoggerState :=
  msgs.foldl (fun st m => pactffi_log_message m.1 m.2.1 m.2.2 st) s

/-- Modelled from the spec: a NULL or empty buffer id selects the default
buffer id. -/
def normalizeId : Option String → String
  | none => ""
  | some s => s

/-- Does the state hold a buffer sink registered under `id`? -/
def bufferRegistered (id : String) (s : LoggerState) : Bool :=
  s.sinks.any (fun sk => sk.kind = SinkKind.buffer id)

/-- The recorded lines of the buffer sink with the given id, if any. -/
def bufferContents (id : String) (s : LoggerState) : Option (List String) :=
  (s.sinks.find? (fun sk => sk.kind = SinkKind.buffer id)).map (fun sk => sk.contents)

/-- Modelled from the spec: `pactffi_fetch_log_buffer` returns the
concatenation, in emission order, of the records written to the buffer
sink with the given id (default id for NULL/empty); it fails with
`SinkNotFound` (a NULL result) when no buffer sink with that id was ever
registered.  The returned string is a freshly allocated snapshot the
caller owns, which the model records in the allocation registry. -/
def pactffi_fetch_log_buffer (id : Option String) (s : LoggerState) :
    Option String × LoggerState :=
  match s.sinks.find? (fun sk => sk.kind = SinkKind.buffer (normalizeId id)) with
  | none => (none, setErr s "SinkNotFound")
  | some sk =>
    let str := String.join sk.contents
    (some str,
      { s with allocated := s.allocated ++ [(s.nextHandle, str)],
               nextHandle := s.nextHandle + 1 })

/-- Modelled from the spec: `pactffi_string_delete` releases a snapshot
string previously returned to the caller. -/
def pactffi_string_delete (h : Nat) (s : LoggerState) : LoggerState :=
  { s with allocated := s.allocated.filter (fun p => p.1 != h) }

/-- Look up a snapshot string still owned by the caller. -/
def lookupAlloc (h : Nat) (s : LoggerState) : Option String :=
  (s.allocated.find? (fun p => p.1 == h)).map (fun p => p.2)

/-- Modelled from the spec: `pactffi_get_error_message` writes up to
`max_len - 1` bytes of the last error message plus one terminator byte
into the caller-provided buffer and returns the number of bytes written,
or a negative sentinel when the slot is empty (`-1`) or the buffer is too
small (`-2`).  The model returns the status together with the bytes
written into the buffer (the terminator is implicit). -/
def pactffi_get_error_message (slot : Option String) (maxLen : Nat) :
    Int × String :=
  match slot with
  | none => (-1, "")
  | some msg =>
    if msg.length + 1 > maxLen then (-2, "")
    else ((msg.length : Int) + 1, msg)

/-- The logger state after the example's setup and four log calls:
stdout at Info, a file sink at Debug, a buffer sink at Trace, apply, then
debug/info/error/trace messages, exactly as in `main.c`. -/
def exampleLoggerState : LoggerState :=
  let s := pactffi_logger_init
  let s := (pactffi_logger_attach_sink "stdout" .Info s).2
  let s := (pactffi_logger_attach_sink "file ./pm_ffi.log" .Debug s).2
  let s := (pactffi_logger_attach_sink "buffer" .Trace s).2
  let s := (pactffi_logger_apply s).2
  let s := pactffi_log_message "example C" "debug" "This is a debug message" s
  let s := pactffi_log_message "example C" "info" "This is an info message" s
  let s := pactffi_log_message "example C" "error" "This is an error message" s
  let s := pactffi_log_message "example C" "trace" "This is a trace message" s
  s

/-- The formatted line a single `pactffi_log_message` call produces
(empty for an unparseable level, which is dropped anyway). -/
def recordLine (m : String × String × String) : String :=
  match parseLevel m.2.1 with
  | some l => formatRecord m.1 l m.2.2
  | none => ""

/-- The state after `attach_sink "buffer" Trace` on a fresh logger
followed by a successful `apply`. -/
def bufferOnlyState : LoggerState :=
  (pactffi_logger_apply
    (pactffi_logger_attach_sink "buffer" .Trace pactffi_logger_init).2).2

/-- The four log calls made by `main.c`. -/
def exampleMsgs : List (String × String × String) :=
  [("example C", "debug", "This is a debug message"),
   ("example C", "info", "This is an info message"),
   ("example C", "error", "This is an error message"),
   ("example C", "trace", "This is a trace message")]

/-! ### Frame lemmas about `pactffi_log_message` -/

theorem log_message_frame (t l m : String) (s : LoggerState) :
    (pactffi_log_message t l m s).phase = s.phase ∧
    (pactffi_log_message t l m s).lastError = s.lastError ∧
    (pactffi_log_message t l m s).allocated = s.allocated ∧
    (pactffi_log_message t l m s).nextHandle = s.nextHandle := by
  rcases s with ⟨ph, sks, e, a, n⟩
  cases ph
  · exact ⟨rfl, rfl, rfl, rfl⟩
  · unfold pactffi_log_message
    cases parseLevel l
    · exact ⟨rfl, rfl, rfl, rfl⟩
    · exact ⟨rfl, rfl, rfl, rfl⟩

theorem runLogs_frame (msgs : List (String × String × String)) :
    ∀ s : LoggerState,
    (runLogs msgs s).phase = s.phase ∧
    (runLogs msgs s).lastError = s.lastError ∧
    (runLogs msgs s).allocated = s.allocated ∧
    (runLogs msgs s).nextHandle = s.nextHandle := by
  induction msgs with
  | nil => intro s; simp [runLogs]
  | cons m ms ih =>
    intro s
    have h1 := log_message_frame m.1 m.2.1 m.2.2 s
    have h2 := ih (pactffi_log_message m.1 m.2.1 m.2.2 s)
    simp only [runLogs, List.foldl_cons] at h2 ⊢
    exact ⟨h2.1.trans h1.1, h2.2.1.trans h1.2.1,
      h2.2.2.1.trans h1.2.2.1, h2.2.2.2.trans h1.2.2.2⟩

/-- Every level string that parses is admitted by a `Trace` filter. -/
theorem parseLevel_trace_admits (str : String) (l : LevelFilter)
    (h : parseLevel str = some l) : admits .Trace l = true := by
  unfold parseLevel at h
  split_ifs at h <;> simp only [Option.some.injEq] at h <;> subst h <;> decide

/-- Running parseable log calls against a lone default-id Trace buffer
sink appends exactly one formatted line per call, in emission order. -/
theorem runLogs_single_buffer (msgs : List (String × String × String)) :
    ∀ (cs : List String) (e : Option String) (a : List (Nat × String)) (n : Nat),
    msgs.all (fun m => (parseLevel m.2.1).isSome) = true →
    runLogs msgs ⟨.Applied, [⟨"buffer", .buffer "", .Trace, cs⟩], e, a, n⟩ =
      ⟨.Applied, [⟨"buffer", .buffer "", .Trace, cs ++ msgs.map recordLine⟩], e, a, n⟩ := by
  induction msgs with
  | nil => intro cs e a n _; simp [runLogs]
  | cons m ms ih =>
    intro cs e a n h
    simp only [List.all_cons, Bool.and_eq_true] at h
    obtain ⟨hm, hms⟩ := h
    obtain ⟨l, hl⟩ := Option.isSome_iff_exists.mp hm
    have hstep : pactffi_log_message m.1 m.2.1 m.2.2
        ⟨.Applied, [⟨"buffer", .buffer "", .Trace, cs⟩], e, a, n⟩ =
        ⟨.Applied, [⟨"buffer", .buffer "", .Trace, cs ++ [recordLine m]⟩], e, a, n⟩ := by
      unfold pactffi_log_message
      simp only [hl, List.map_cons, List.map_nil]
      rw [parseLevel_trace_admits m.2.1 l hl]
      simp [recordLine, hl]
    simp only [runLogs, List.foldl_cons] at ih ⊢
    rw [hstep]
    rw [ih (cs ++ [recordLine m]) e a n hms]
    simp

/-! ### Claim theorems C1 – C4 -/

/-- C1: a record emitted at level `L` is admitted by a sink with filter
`F` iff `L ≤ F` in the total order `Off < Error < Warn < Info < Debug <
Trace < All`; and after the example attaches stdout at Info, a file sink
at Debug and a buffer sink at Trace and emits debug, info, error and
trace records, each sink holds exactly the admitted records, in emission
order. -/
theorem level_admission_order :
    (∀ L F : LevelFilter, admits F L = true ↔ chainIdx L ≤ chainIdx F) ∧
    exampleLoggerState.sinks.map (fun sk => (sk.spec, sk.contents)) =
      [("stdout",
        [formatRecord "example C" .Info "This is an info message",
         formatRecord "example C" .Error "This is an error message"]),
       ("file ./pm_ffi.log",
        [formatRecord "example C" .Debug "This is a debug message",
         formatRecord "example C" .Info "This is an info message",
         formatRecord "example C" .Error "This is an error message"]),
       ("buffer",
        [formatRecord "example C" .Debug "This is a debug message",
         formatRecord "example C" .Info "This is an info message",
         formatRecord "example C" .Error "This is an error message",
         formatRecord "example C" .Trace "This is a trace message"])] :=
  ⟨by decide, by decide⟩

/-- C2: after attaching a buffer sink at Trace and applying, emitting any
list of records with parseable levels and fetching the default buffer
returns the concatenation of exactly one formatted line per record, in
emission order (so `N` records give `N` lines). -/
theorem buffer_round_trip (msgs : List (String × String × String))
    (h : msgs.all (fun m => (parseLevel m.2.1).isSome) = true) :
    (pactffi_fetch_log_buffer none (runLogs msgs bufferOnlyState)).1 =
      some (String.join (msgs.map recordLine)) ∧
    bufferContents "" (runLogs msgs bufferOnlyState) =
      some (msgs.map recordLine) ∧
    (msgs.map recordLine).length = msgs.length := by
  have hsetup : bufferOnlyState =
      ⟨.Applied, [⟨"buffer", .buffer "", .Trace, []⟩], none, [], 0⟩ := by decide
  rw [hsetup, runLogs_single_buffer msgs [] none [] 0 h]
  refine ⟨?_, ?_, by simp⟩
  · simp [pactffi_fetch_log_buffer, normalizeId, List.find?]
  · simp [bufferContents, List.find?]

/-- Witness for C2 at the example's four records: the hypothesis holds,
the fetched string is the four formatted lines in order, and it is
non-empty. -/
theorem buffer_round_trip_witness :
    exampleMsgs.all (fun m => (parseLevel m.2.1).isSome) = true ∧
    ((pactffi_fetch_log_buffer none (runLogs exampleMsgs bufferOnlyState)).1 =
      some (String.join (exampleMsgs.map recordLine)) ∧
     bufferContents "" (runLogs exampleMsgs bufferOnlyState) =
      some (exampleMsgs.map recordLine) ∧
     (exampleMsgs.map recordLine).length = exampleMsgs.length) ∧
    (String.join (exampleMsgs.map recordLine)).length ≠ 0 :=
  ⟨by decide, buffer_round_trip exampleMsgs (by decide), by decide⟩

/-- A demonstration pre-apply state with one attached sink. -/
def demoBuildingState : LoggerState :=
  (pactffi_logger_attach_sink "stdout" .Info pactffi_logger_init).2

/-- C3: on a Building state with a non-empty sink set the first apply
returns status 0; a second apply, after any intervening log calls,
returns the nonzero `AlreadyApplied` status rather than silently
succeeding. -/
theorem logger_apply_already_applied (s : LoggerState)
    (h1 : s.phase = .Building) (h2 : s.sinks ≠ []) :
    (pactffi_logger_apply s).1 = statusOk ∧
    errAlreadyApplied ≠ statusOk ∧
    ∀ msgs, (pactffi_logger_apply
      (runLogs msgs (pactffi_logger_apply s).2)).1 = errAlreadyApplied := by
  rcases s with ⟨ph, sks, e, a, n⟩
  simp only at h1
  subst h1
  have hne : sks.isEmpty = false := by
    simpa [List.isEmpty_iff] using h2
  refine ⟨?_, by decide, ?_⟩
  · simp [pactffi_logger_apply, hne]
  · intro msgs
    have happ : (pactffi_logger_apply ⟨.Building, sks, e, a, n⟩).2 =
        ⟨.Applied, sks, e, a, n⟩ := by
      simp [pactffi_logger_apply, hne]
    rw [happ]
    have hph := (runLogs_frame msgs ⟨.Applied, sks, e, a, n⟩).1
    rcases hrun : runLogs msgs ⟨.Applied, sks, e, a, n⟩ with ⟨ph2, sks2, e2, a2, n2⟩
    rw [hrun] at hph
    simp only at hph
    subst hph
    simp [pactffi_logger_apply]

/-- Witness for C3: a fresh logger with a stdout sink applies with
status 0, and re-applying after the example's four log calls returns
`AlreadyApplied`. -/
theorem logger_apply_already_applied_witness :
    (pactffi_logger_apply demoBuildingState).1 = statusOk ∧
    (pactffi_logger_apply
      (runLogs exampleMsgs (pactffi_logger_apply demoBuildingState).2)).1 =
      errAlreadyApplied :=
  ⟨(logger_apply_already_applied demoBuildingState (by decide) (by decide)).1,
   (logger_apply_already_applied demoBuildingState (by decide) (by decide)).2.2
     exampleMsgs⟩

/-- C4: `pactffi_fetch_log_buffer` returns NULL exactly when no buffer
sink with the (normalised: NULL or empty selects the default) id is
registered, in which case the last error is `SinkNotFound`; after a
successful `attach_sink "buffer"` and `apply`, fetching with NULL id
returns a non-null string. -/
theorem fetch_buffer_not_found_iff :
    (∀ (s : LoggerState) (id : Option String),
      ((pactffi_fetch_log_buffer id s).1 = none ↔
        bufferRegistered (normalizeId id) s = false) ∧
      ((pactffi_fetch_log_buffer id s).1 = none →
        (pactffi_fetch_log_buffer id s).2.lastError = some "SinkNotFound")) ∧
    (pactffi_fetch_log_buffer none bufferOnlyState).1.isSome = true := by
  constructor
  · intro s id
    unfold pactffi_fetch_log_buffer bufferRegistered
    cases hf : s.sinks.find? (fun sk => sk.kind = SinkKind.buffer (normalizeId id)) with
    | none =>
      refine ⟨⟨fun _ => ?_, fun _ => rfl⟩, fun _ => by simp [setErr]⟩
      rw [List.find?_eq_none] at hf
      simp only [List.any_eq_false]
      intro sk hsk
      simpa using hf sk hsk
    | some sk =>
      refine ⟨⟨fun hcontra => by simp at hcontra, fun hreg => ?_⟩, fun hcontra => by simp at hcontra⟩
      exfalso
      have hmem := List.mem_of_find?_eq_some hf
      have hpred := List.find?_some hf
      simp only [List.any_eq_false] at hreg
      exact absurd hpred (by simpa using hreg sk hmem)
  · decide

/-- Witness for C4: on a fresh logger with no sinks, a default-id fetch
returns NULL and records `SinkNotFound` in the last-error slot. -/
theorem fetch_buffer_not_found_iff_witness :
    (pactffi_fetch_log_buffer none pactffi_logger_init).2.lastError =
      some "SinkNotFound" :=
  (fetch_buffer_not_found_iff.1 pactffi_logger_init none).2 (by decide)

/-- C5: `pactffi_log_message` surfaces no failure: it never touches the
last-error slot, never changes the lifecycle phase, silently drops a
record whose level string is unknown (the state is completely unchanged),
and any sequence of log calls returns normally with the last-error slot
intact. -/
theorem log_message_no_failure (t l m : String) (s : LoggerState) :
    (pactffi_log_message t l m s).lastError = s.lastError ∧
    (pactffi_log_message t l m s).phase = s.phase ∧
    (parseLevel l = none → pactffi_log_message t l m s = s) ∧
    (∀ (msgs : List (String × String × String)) (s0 : LoggerState),
      (runLogs msgs s0).lastError = s0.lastError) := by
  refine ⟨(log_message_frame t l m s).2.1, (log_message_frame t l m s).1, ?_,
    fun msgs s0 => (runLogs_frame msgs s0).2.1⟩
  intro hnone
  rcases s with ⟨ph, sks, e, a, n⟩
  cases ph
  · rfl
  · simp [pactffi_log_message, hnone]

/-- Witness for C5: a log call with the unknown level string `"bogus"`
leaves the applied example state (and its error slot) unchanged. -/
theorem log_message_no_failure_witness :
    (pactffi_log_message "x" "bogus" "y" bufferOnlyState).lastError =
      bufferOnlyState.lastError ∧
    pactffi_log_message "x" "bogus" "y" bufferOnlyState = bufferOnlyState :=
  ⟨(log_message_no_failure "x" "bogus" "y" bufferOnlyState).1,
   (log_message_no_failure "x" "bogus" "y" bufferOnlyState).2.2.1 (by decide)⟩

/-- C6: `pactffi_get_error_message` returns a negative sentinel when the
slot is empty or the buffer cannot hold the message plus its terminator;
otherwise it writes the message (at most `max_len - 1` bytes) and returns
the number of bytes written including the terminator; the slot always
holds only the most recently recorded failure. -/
theorem get_error_message_bounds (slot : Option String) (maxLen : Nat) :
    (slot = none → (pactffi_get_error_message slot maxLen).1 < 0) ∧
    (∀ msg, slot = some msg → maxLen < msg.length + 1 →
      (pactffi_get_error_message slot maxLen).1 < 0) ∧
    (∀ msg, slot = some msg → msg.length + 1 ≤ maxLen →
      (pactffi_get_error_message slot maxLen).2 = msg ∧
      (pactffi_get_error_message slot maxLen).2.length ≤ maxLen - 1 ∧
      (pactffi_get_error_message slot maxLen).1 =
        ((pactffi_get_error_message slot maxLen).2.length : Int) + 1 ∧
      0 ≤ (pactffi_get_error_message slot maxLen).1) ∧
    (∀ (s : LoggerState) (e : String), (setErr s e).lastError = some e) := by
  refine ⟨?_, ?_, ?_, fun s e => rfl⟩
  · intro h; subst h
    show (-1 : Int) < 0
    decide
  · intro msg h hlt; subst h
    simp only [pactffi_get_error_message]
    rw [if_pos hlt]
    decide
  · intro msg h hle; subst h
    simp only [pactffi_get_error_message]
    rw [if_neg (by omega)]
    refine ⟨rfl, ?_, rfl, ?_⟩
    · show msg.length ≤ maxLen - 1
      omega
    · show (0 : Int) ≤ (msg.length : Int) + 1
      omega

/-- Witness for C6: fetching the message `"boom"` into a 256-byte buffer
writes the 4 message bytes and returns 5 (message plus terminator). -/
theorem get_error_message_bounds_witness :
    (pactffi_get_error_message (some "boom") 256).2 = "boom" ∧
    (pactffi_get_error_message (some "boom") 256).2.length ≤ 256 - 1 ∧
    (pactffi_get_error_message (some "boom") 256).1 =
      ((pactffi_get_error_message (some "boom") 256).2.length : Int) + 1 ∧
    0 ≤ (pactffi_get_error_message (some "boom") 256).1 :=
  (get_error_message_bounds (some "boom") 256).2.2.1 "boom" rfl (by decide)

/-- C7: a fetched buffer string is a snapshot owned by the caller: after
any further sequence of log calls the snapshot registered at the fetch
still holds exactly the fetched contents, and it is released only by an
explicit `pactffi_string_delete`, after which it is gone. -/
theorem fetch_snapshot_immutable (s : LoggerState) (id : Option String)
    (str : String) (s' : LoggerState)
    (hfresh : s.allocated.all (fun p => p.1 < s.nextHandle) = true)
    (hfetch : pactffi_fetch_log_buffer id s = (some str, s')) :
    (∀ msgs, lookupAlloc s.nextHandle (runLogs msgs s') = some str) ∧
    (∀ msgs, lookupAlloc s.nextHandle
      (pactffi_string_delete s.nextHandle (runLogs msgs s')) = none) := by
  unfold pactffi_fetch_log_buffer at hfetch
  cases hf : s.sinks.find? (fun sk => sk.kind = SinkKind.buffer (normalizeId id)) with
  | none => rw [hf] at hfetch; simp at hfetch
  | some sk =>
    rw [hf] at hfetch
    simp only [Prod.mk.injEq, Option.some.injEq] at hfetch
    obtain ⟨hstr, hs'⟩ := hfetch
    have halloc : ∀ msgs, (runLogs msgs s').allocated =
        s.allocated ++ [(s.nextHandle, str)] := by
      intro msgs
      rw [(runLogs_frame msgs s').2.2.1, ← hs']
      simp [hstr]
    constructor
    · intro msgs
      rw [lookupAlloc, halloc msgs, List.find?_append]
      have hnone : s.allocated.find? (fun p => p.1 == s.nextHandle) = none := by
        rw [List.find?_eq_none]
        intro p hp
        simp only [List.all_eq_true] at hfresh
        have := hfresh p hp
        simp only [decide_eq_true_eq] at this
        simp only [beq_iff_eq]
        omega
      rw [hnone]
      simp
    · intro msgs
      rw [pactffi_string_delete, lookupAlloc]
      rw [Option.map_eq_none', List.find?_eq_none]
      intro p hp
      rw [List.mem_filter] at hp
      simp only [bne_iff_ne, ne_eq] at hp
      simp only [beq_iff_eq]
      exact hp.2

/-- The example state right before the fetch: buffer sink applied and the
four example records emitted. -/
def snapshotDemoState : LoggerState := runLogs exampleMsgs bufferOnlyState

/-- Witness for C7: the snapshot fetched after the four example records
survives a further round of the same four log calls unchanged, and an
explicit delete removes it. -/
theorem fetch_snapshot_immutable_witness :
    lookupAlloc snapshotDemoState.nextHandle
      (runLogs exampleMsgs (pactffi_fetch_log_buffer none snapshotDemoState).2) =
      some (String.join (exampleMsgs.map recordLine)) ∧
    lookupAlloc snapshotDemoState.nextHandle
      (pactffi_string_delete snapshotDemoState.nextHandle
        (runLogs exampleMsgs (pactffi_fetch_log_buffer none snapshotDemoState).2)) =
      none :=
  ⟨(fetch_snapshot_immutable snapshotDemoState none
      (String.join (exampleMsgs.map recordLine))
      (pactffi_fetch_log_buffer none snapshotDemoState).2
      (by decide) (by decide)).1 exampleMsgs,
   (fetch_snapshot_immutable snapshotDemoState none
      (String.join (exampleMsgs.map recordLine))
      (pactffi_fetch_log_buffer none snapshotDemoState).2
      (by decide) (by decide)).2 exampleMsgs⟩

/-! ### Shallow embedding of `main` from
`src/rust/pact_ffi/examples/logging/src/main.c` (compiled without CURL).
The pact_ffi library is external to `main`, so its return values are the
inputs of the embedding. -/

/-- The values the pact_ffi calls return to `main`: the four status
codes, the fetch result (NULL modelled as `none`) and the text
`pactffi_get_error_message` deposits in the 256-byte buffer. -/
structure FfiOracle where
  attachStdout : Int
  attachFile : Int
  attachBuffer : Int
  applyStatus : Int
  fetchResult : Option String
  errorMsg : String
deriving DecidableEq, Repr

/-- One observable step of `main.c`: a pact_ffi call (with the value it
returned) or a line printed to stdout. -/
inductive Event where
  | init
  | attachSink (spec : String) (filter : LevelFilter) (status : Int)
  | applyCall (status : Int)
  | logMessage (target level message : String)
  | fetchLogBuffer (result : Option String)
  | getErrorMessage (maxLen : Nat)
  | stringDelete
  | print (s : String)
deriving DecidableEq, Repr

/-- Shallow embedding of `main` from
`src/rust/pact_ffi/examples/logging/src/main.c` without CURL: the exit
code (`EXIT_SUCCESS = 0`, `EXIT_FAILURE = 1`) and the trace of calls and
prints, following the C control flow statement by statement. -/
def mainC (o : FfiOracle) : Int × List Event :=
  let t0 : List Event := [.init, .attachSink "stdout" .Info o.attachStdout]
  if o.attachStdout ≠ 0 then
    (1, t0 ++ [.getErrorMessage 256, .print (o.errorMsg ++ "\n")])
  else
    let t1 := t0 ++ [.attachSink "file ./pm_ffi.log" .Debug o.attachFile]
    if o.attachFile ≠ 0 then
      (1, t1 ++ [.getErrorMessage 256, .print (o.errorMsg ++ "\n")])
    else
      let t2 := t1 ++ [.attachSink "buffer" .Trace o.attachBuffer]
      if o.attachBuffer ≠ 0 then
        (1, t2 ++ [.getErrorMessage 256, .print (o.errorMsg ++ "\n")])
      else
        let t3 := t2 ++ [.applyCall o.applyStatus]
        if o.applyStatus ≠ 0 then
          (1, t3 ++ [.getErrorMessage 256, .print (o.errorMsg ++ "\n")])
        else
          let t4 := t3 ++
            [.logMessage "example C" "debug" "This is a debug message",
             .logMessage "example C" "info" "This is an info message",
             .logMessage "example C" "error" "This is an error message",
             .logMessage "example C" "trace" "This is a trace message",
             .fetchLogBuffer o.fetchResult]
          match o.fetchResult with
          | none => (1, t4 ++ [.print "Could not get the buffered logs\n"])
          | some logs =>
            let t5 := t4 ++
              [.print "---- Logs from buffer ----\n", .print logs,
               .print "--------------------------\n"]
            if logs.length = 0 then
              (1, t5 ++ [.print "Buffered logs are empty\n"])
            else
              (0, t5 ++ [.stringDelete])

/-- C8: `main` (without CURL) exits with `EXIT_SUCCESS` iff the three
attach calls and the apply call return status 0, the fetch returns
non-NULL and the fetched string is non-empty; on each path where an
attach or the apply status is nonzero, `main` prints the message obtained
via `pactffi_get_error_message` into a 256-byte buffer and exits with
`EXIT_FAILURE` making no further logger calls. -/
theorem main_exit_and_error_paths (o : FfiOracle) :
    ((mainC o).1 = 0 ↔
      o.attachStdout = 0 ∧ o.attachFile = 0 ∧ o.attachBuffer = 0 ∧
      o.applyStatus = 0 ∧ ∃ s, o.fetchResult = some s ∧ s.length ≠ 0) ∧
    (o.attachStdout ≠ 0 → mainC o =
      (1, [.init, .attachSink "stdout" .Info o.attachStdout,
           .getErrorMessage 256, .print (o.errorMsg ++ "\n")])) ∧
    (o.attachStdout = 0 → o.attachFile ≠ 0 → mainC o =
      (1, [.init, .attachSink "stdout" .Info o.attachStdout,
           .attachSink "file ./pm_ffi.log" .Debug o.attachFile,
           .getErrorMessage 256, .print (o.errorMsg ++ "\n")])) ∧
    (o.attachStdout = 0 → o.attachFile = 0 → o.attachBuffer ≠ 0 → mainC o =
      (1, [.init, .attachSink "stdout" .Info o.attachStdout,
           .attachSink "file ./pm_ffi.log" .Debug o.attachFile,
           .attachSink "buffer" .Trace o.attachBuffer,
           .getErrorMessage 256, .print (o.errorMsg ++ "\n")])) ∧
    (o.attachStdout = 0 → o.attachFile = 0 → o.attachBuffer = 0 →
      o.applyStatus ≠ 0 → mainC o =
      (1, [.init, .attachSink "stdout" .Info o.attachStdout,
           .attachSink "file ./pm_ffi.log" .Debug o.attachFile,
           .attachSink "buffer" .Trace o.attachBuffer,
           .applyCall o.applyStatus,
           .getErrorMessage 256, .print (o.errorMsg ++ "\n")])) := by
  refine ⟨?_, ?_, ?_, ?_, ?_⟩
  · by_cases h1 : o.attachStdout = 0
    · by_cases h2 : o.attachFile = 0
      · by_cases h3 : o.attachBuffer = 0
        · by_cases h4 : o.applyStatus = 0
          · cases hf : o.fetchResult with
            | none => simp [mainC, h1, h2, h3, h4, hf]
            | some logs =>
              by_cases h5 : logs.length = 0
              · simp [mainC, h1, h2, h3, h4, hf, h5]
              · simp [mainC, h1, h2, h3, h4, hf, h5]
          · simp [mainC, h1, h2, h3, h4]
        · simp [mainC, h1, h2, h3]
      · simp [mainC, h1, h2]
    · simp [mainC, h1]
  · intro h1; simp [mainC, h1]
  · intro h1 h2; simp [mainC, h1, h2]
  · intro h1 h2 h3; simp [mainC, h1, h2, h3]
  · intro h1 h2 h3 h4; simp [mainC, h1, h2, h3, h4]

/-- An oracle where every call succeeds and the fetched buffer is the
example's non-empty log text. -/
def oracleSuccess : FfiOracle :=
  ⟨0, 0, 0, 0, some "example C DEBUG This is a debug message\n", ""⟩

/-- An oracle whose first attach fails. -/
def oracleAttachFail : FfiOracle :=
  ⟨9, 0, 0, 0, none, "InvalidSinkSpec"⟩

/-- Witness for C8: with all statuses 0 and a non-empty fetched string
`main` exits 0; with a failing first attach it exits 1 after printing the
error message, with no further logger calls. -/
theorem main_exit_and_error_paths_witness :
    (mainC oracleSuccess).1 = 0 ∧
    mainC oracleAttachFail =
      (1, [.init, .attachSink "stdout" .Info oracleAttachFail.attachStdout,
           .getErrorMessage 256,
           .print (oracleAttachFail.errorMsg ++ "\n")]) :=
  ⟨((main_exit_and_error_paths oracleSuccess).1).mpr
      ⟨rfl, rfl, rfl, rfl, "example C DEBUG This is a debug message\n", rfl,
       by decide⟩,
   (main_exit_and_error_paths oracleAttachFail).2.1 (by decide)⟩

/-- The scanning state of the lifecycle checker. -/
structure LifeSt where
  inited : Bool
  appliedOk : Bool
  applyCalls : Nat
  ok : Bool
deriving DecidableEq, Repr

/-- One step of the lifecycle checker: an attach requires a prior init
and must precede the apply; the apply may happen at most once; a log or
fetch call requires that the apply already returned status 0. -/
def lifeStep (st : LifeSt) (e : Event) : LifeSt :=
  match e with
  | .init => { st with inited := true }
  | .attachSink _ _ _ =>
    if st.inited && st.applyCalls == 0 then st else { st with ok := false }
  | .applyCall status =>
    { st with applyCalls := st.applyCalls + 1,
              appliedOk := status == 0,
              ok := st.ok && st.applyCalls == 0 }
  | .logMessage _ _ _ => if st.appliedOk then st else { st with ok := false }
  | .fetchLogBuffer _ => if st.appliedOk then st else { st with ok := false }
  | .getErrorMessage _ => st
  | .stringDelete => st
  | .print _ => st

/-- Does a trace respect the init → attach* → apply → log/fetch
lifecycle? -/
def lifecycleOk (tr : List Event) : Bool :=
  (tr.foldl lifeStep ⟨false, false, 0, true⟩).ok

/-- C9: every execution of `main` respects the lifecycle order: init
precedes every attach, every attach precedes the single apply call, and
log and fetch calls happen only after the apply returned status 0; no
attach follows the apply and no log precedes it. -/
theorem main_lifecycle_order (o : FfiOracle) :
    lifecycleOk (mainC o).2 = true := by
  by_cases h1 : o.attachStdout = 0
  · by_cases h2 : o.attachFile = 0
    · by_cases h3 : o.attachBuffer = 0
      · by_cases h4 : o.applyStatus = 0
        · cases hf : o.fetchResult with
          | none => simp [mainC, h1, h2, h3, h4, hf, lifecycleOk, lifeStep]
          | some logs =>
            by_cases h5 : logs.length = 0
            · simp [mainC, h1, h2, h3, h4, hf, h5, lifecycleOk, lifeStep]
            · simp [mainC, h1, h2, h3, h4, hf, h5, lifecycleOk, lifeStep]
        · simp [mainC, h1, h2, h3, h4, lifecycleOk, lifeStep]
      · simp [mainC, h1, h2, h3, lifecycleOk, lifeStep]
    · simp [mainC, h1, h2, lifecycleOk, lifeStep]
  · simp [mainC, h1, lifecycleOk, lifeStep]

/-- Number of `pactffi_string_delete` calls in a trace. -/
def countDelete (tr : List Event) : Nat :=
  tr.countP (fun e => match e with | .stringDelete => true | _ => false)

/-- C10: `main` (without CURL) calls `pactffi_string_delete` exactly once
iff the fetch call returned a non-NULL, non-empty string; whenever the
fetch would return an empty (though non-NULL) string, `main` exits with
`EXIT_FAILURE` without releasing the snapshot. -/
theorem main_delete_iff_nonempty_fetch (o : FfiOracle) :
    (countDelete (mainC o).2 = 1 ↔
      ∃ s, Event.fetchLogBuffer (some s) ∈ (mainC o).2 ∧ s.length ≠ 0) ∧
    (∀ s, o.fetchResult = some s → s.length = 0 →
      (mainC o).1 = 1 ∧ countDelete (mainC o).2 = 0) := by
  constructor
  · by_cases h1 : o.attachStdout = 0
    · by_cases h2 : o.attachFile = 0
      · by_cases h3 : o.attachBuffer = 0
        · by_cases h4 : o.applyStatus = 0
          · cases hf : o.fetchResult with
            | none => simp [mainC, h1, h2, h3, h4, hf, countDelete]
            | some logs =>
              by_cases h5 : logs.length = 0
              · simp [mainC, h1, h2, h3, h4, hf, h5, countDelete]
              · simp only [mainC, h1, h2, h3, h4, hf, h5, countDelete]
                simp [h5]
          · simp [mainC, h1, h2, h3, h4, countDelete]
        · simp [mainC, h1, h2, h3, countDelete]
      · simp [mainC, h1, h2, countDelete]
    · simp [mainC, h1, countDelete]
  · intro s hs h0
    by_cases h1 : o.attachStdout = 0
    · by_cases h2 : o.attachFile = 0
      · by_cases h3 : o.attachBuffer = 0
        · by_cases h4 : o.applyStatus = 0
          · simp [mainC, h1, h2, h3, h4, hs, h0, countDelete]
          · simp [mainC, h1, h2, h3, h4, countDelete]
        · simp [mainC, h1, h2, h3, countDelete]
      · simp [mainC, h1, h2, countDelete]
    · simp [mainC, h1, countDelete]

/-- An oracle where all statuses succeed but the fetched string is empty. -/
def oracleEmptyFetch : FfiOracle := ⟨0, 0, 0, 0, some "", ""⟩

/-- Witness for C10: with an empty (non-NULL) fetched string, `main`
exits with failure and never calls `pactffi_string_delete`. -/
theorem main_delete_iff_nonempty_fetch_witness :
    (mainC oracleEmptyFetch).1 = 1 ∧
    countDelete (mainC oracleEmptyFetch).2 = 0 :=
  (main_delete_iff_nonempty_fetch oracleEmptyFetch).2 "" rfl rfl
